import Mathlib

/-!
Shallow embedding of the youtube-audio-server `api_server.py` (rate limiter,
admission control, extraction handler, job store, proxy management, cleanup),
together with theorems settling the specification claims about it.

Times are modelled as integers (Python `time.time()` values), memory and disk
readings as rationals (Python floats compared against fractional thresholds).
-/

namespace YTAudio

/-! ### ASCII string helpers (Python `str.lower` and `in` on strings) -/

/-- ASCII lowercase of one character, mirroring Python `str.lower` on the
ASCII range that all matched patterns live in. -/
def asciiLowerChar (c : Char) : Char :=
  if 'A' ≤ c ∧ c ≤ 'Z' then Char.ofNat (c.toNat + 32) else c

/-- ASCII lowercase of a string. -/
def asciiLower (s : String) : String :=
  ⟨s.data.map asciiLowerChar⟩

/-- `containsSub pat l` decides whether `pat` occurs as a contiguous sublist
of `l`. -/
def containsSub (pat : List Char) : List Char → Bool
  | [] => pat.isEmpty
  | c :: rest => pat.isPrefixOf (c :: rest) || containsSub pat rest

/-- `containsStr s pat` is Python `pat in s`. -/
def containsStr (s pat : String) : Bool :=
  containsSub pat.data s.data

/-! ### Rate limiter (`rate_limit` decorator, src/api_server.py lines 85-114)

One call of the decorated wrapper on a single client's stored timestamp list:
prune entries with `now - timestamp < window` failing, deny with
`retry_after = window` when the pruned count has reached `max_requests`,
otherwise append `now` and allow. -/

structure RLResult where
  newTimestamps : List Int
  allowed : Bool
  retryAfter : Option Int
  deriving DecidableEq, Repr

/-- One pass of the `rate_limit` decorator body for one client. -/
def rateLimitStep (maxRequests : Nat) (window : Int) (tss : List Int) (now : Int) : RLResult :=
  let pruned := tss.filter (fun ts => now - ts < window)
  if maxRequests ≤ pruned.length then
    { newTimestamps := pruned, allowed := false, retryAfter := some window }
  else
    { newTimestamps := pruned ++ [now], allowed := true, retryAfter := none }

/-- Run a sequence of requests (their arrival times) from one client through
`rateLimitStep`, starting from stored timestamps `tss`.  Returns the final
stored timestamps and the list of `retry_after` values reported on denials. -/
def processRequests (L : Nat) (W : Int) : List Int → List Int → List Int × List Int
  | tss, [] => (tss, [])
  | tss, t :: rest =>
    let r := rateLimitStep L W tss t
    let p := processRequests L W r.newTimestamps rest
    (p.1, r.retryAfter.toList ++ p.2)

lemma filter_of_all {p : Int → Bool} : ∀ {l : List Int}, (∀ x ∈ l, p x = true) → l.filter p = l := by
  intro l h
  induction l with
  | nil => rfl
  | cons a t ih =>
    have ha : p a = true := h a (List.mem_cons_self a t)
    simp [List.filter, ha, ih (fun x hx => h x (List.mem_cons_of_mem a hx))]

lemma processRequests_spec (L : Nat) (W : Int) :
    ∀ (times tss : List Int),
      (∀ a ∈ times, ∀ b ∈ tss, a - b < W) →
      (∀ a ∈ times, ∀ b ∈ times, a - b < W) →
      tss.length ≤ L →
      (processRequests L W tss times).1.length = min (tss.length + times.length) L ∧
      (processRequests L W tss times).2.length = tss.length + times.length - L ∧
      ∀ r ∈ (processRequests L W tss times).2, r = W := by
  intro times
  induction times with
  | nil =>
    intro tss _ _ hlen
    refine ⟨?_, ?_, ?_⟩ <;> simp [processRequests] <;> omega
  | cons t rest ih =>
    intro tss h1 h2 hlen
    have hkeep : tss.filter (fun ts => decide (t - ts < W)) = tss := by
      apply filter_of_all
      intro x hx
      simpa using h1 t (List.mem_cons_self t rest) x hx
    by_cases hc : L ≤ tss.length
    · have hstep : rateLimitStep L W tss t =
        { newTimestamps := tss, allowed := false, retryAfter := some W } := by
        simp [rateLimitStep, hkeep, hc]
      have hrec := ih tss
        (fun a ha b hb => h1 a (List.mem_cons_of_mem t ha) b hb)
        (fun a ha b hb => h2 a (List.mem_cons_of_mem t ha) b (List.mem_cons_of_mem t hb))
        hlen
      refine ⟨?_, ?_, ?_⟩
      · simpa [processRequests, hstep] using by
          have := hrec.1
          omega
      · simp only [processRequests, hstep, Option.toList]
        have := hrec.2.1
        simp only [List.length_cons, List.length_append, List.length_nil]
        omega
      · intro r hr
        simp only [processRequests, hstep, Option.toList, List.cons_append,
          List.nil_append, List.mem_cons] at hr
        rcases hr with h | h
        · exact h
        · exact hrec.2.2 r h
    · have hstep : rateLimitStep L W tss t =
        { newTimestamps := tss ++ [t], allowed := true, retryAfter := none } := by
        simp [rateLimitStep, hkeep, hc]
      have h1' : ∀ a ∈ rest, ∀ b ∈ tss ++ [t], a - b < W := by
        intro a ha b hb
        rcases List.mem_append.mp hb with hb | hb
        · exact h1 a (List.mem_cons_of_mem t ha) b hb
        · have hbt : b = t := by simpa using hb
          rw [hbt]
          exact h2 a (List.mem_cons_of_mem t ha) t (List.mem_cons_self t rest)
      have hrec := ih (tss ++ [t]) h1'
        (fun a ha b hb => h2 a (List.mem_cons_of_mem t ha) b (List.mem_cons_of_mem t hb))
        (by simp; omega)
      refine ⟨?_, ?_, ?_⟩
      · simp only [processRequests, hstep]
        have := hrec.1
        simp only [List.length_append, List.length_cons, List.length_nil] at this ⊢
        omega
      · simp only [processRequests, hstep, Option.toList]
        have := hrec.2.1
        simp only [List.length_append, List.length_cons, List.length_nil] at this ⊢
        omega
      · intro r hr
        simp only [processRequests, hstep, Option.toList, List.nil_append] at hr
        exact hrec.2.2 r hr

/-- C1: for a sequence of `N` requests from one fresh client all arriving
within a single window of `W` seconds on an endpoint with limit `L`, exactly
`max(0, N - L)` of them are denied (the first `L` allowed, the rest denied),
and every denial reports a `retry_after` value that is at least `W`. -/
theorem C1_rate_limit_exact_denials (L : Nat) (W : Int) (times : List Int)
    (hwin : ∀ a ∈ times, ∀ b ∈ times, a - b < W) :
    (processRequests L W [] times).1.length = min times.length L ∧
    (processRequests L W [] times).2.length = times.length - L ∧
    ∀ r ∈ (processRequests L W [] times).2, W ≤ r := by
  have h := processRequests_spec L W times [] (by simp) hwin (by simp)
  refine ⟨?_, ?_, ?_⟩
  · simpa using h.1
  · simpa using h.2.1
  · intro r hr
    exact le_of_eq (h.2.2 r hr).symm

theorem C1_rate_limit_exact_denials_witness :
    (processRequests 5 300 [] [0, 1, 2, 3, 4, 5, 6]).1.length = min 7 5 ∧
    (processRequests 5 300 [] [0, 1, 2, 3, 4, 5, 6]).2.length = 7 - 5 ∧
    ∀ r ∈ (processRequests 5 300 [] [0, 1, 2, 3, 4, 5, 6]).2, (300 : Int) ≤ r :=
  C1_rate_limit_exact_denials 5 300 [0, 1, 2, 3, 4, 5, 6] (by decide)

lemma rateLimitStep_allowed_of_filter_nil (L : Nat) (W : Int) (tss : List Int) (now : Int)
    (hL : 1 ≤ L) (h : tss.filter (fun ts => now - ts < W) = []) :
    (rateLimitStep L W tss now).allowed = true := by
  unfold rateLimitStep
  simp only [h, List.length_nil]
  have hpos : ¬ L ≤ 0 := by omega
  simp [hpos]

/-- C8: a client all of whose recorded timestamps are at most `T` (in
particular one that was denied at time `T`, which records nothing new) is
allowed again at any time `t ≥ T + W`: every stored timestamp has aged out
of the window by then. -/
theorem C8_denied_client_allowed_after_window (L : Nat) (W T t : Int) (tss : List Int)
    (hL : 1 ≤ L) (hts : ∀ ts ∈ tss, ts ≤ T)
    (hden : (rateLimitStep L W tss T).allowed = false)
    (ht : T + W ≤ t) :
    (rateLimitStep L W (rateLimitStep L W tss T).newTimestamps t).allowed = true := by
  have hsub : ∀ ts ∈ (rateLimitStep L W tss T).newTimestamps, ts ≤ T := by
    intro ts hmem
    unfold rateLimitStep at hmem
    by_cases hc : L ≤ (tss.filter (fun ts => T - ts < W)).length
    · simp [hc] at hmem
      exact hts ts hmem.1
    · simp [hc] at hmem
      rcases hmem with h | h
      · exact hts ts h.1
      · omega
  have hempty : ((rateLimitStep L W tss T).newTimestamps.filter
      (fun ts => t - ts < W)) = [] := by
    apply List.filter_eq_nil_iff.mpr
    intro ts hmem
    have := hsub ts hmem
    simp only [decide_eq_true_eq]
    omega
  exact rateLimitStep_allowed_of_filter_nil L W _ t hL hempty

theorem C8_denied_client_allowed_after_window_witness :
    (rateLimitStep 5 300 (rateLimitStep 5 300 [0, 0, 0, 0, 0] 0).newTimestamps 300).allowed
      = true :=
  C8_denied_client_allowed_after_window 5 300 0 300 [0, 0, 0, 0, 0]
    (by decide) (by decide) (by decide) (by decide)

/-! ### Admission control (`check_memory_usage` lines 116-127,
`check_system_resources` lines 151-175)

The OS metric readings are an environment parameter.  `memPercentAfterCleanup`
is what `psutil` would report were memory re-read after the forced cleanup;
the code never performs such a re-read, which is exactly what claim C3 is
about.  Disk readings are in GB (the code computes `free / 1024**3` and
compares against `0.5` and `0.2`); the second reading is taken after the
forced cleanup, which the code does perform for disk. -/

structure SysEnv where
  memPercent : ℚ
  memPercentAfterCleanup : ℚ
  freeGB : ℚ
  freeGBAfterCleanup : ℚ
  deriving DecidableEq

/-- Forced-cleanup side effects performed during an admission check. -/
inductive CleanupEvent where
  | memCleanup
  | diskCleanup
  deriving DecidableEq, Repr

/-- `check_memory_usage`: returns `True` (and forces a cleanup sweep plus
garbage collection) exactly when the memory reading exceeds 80%. -/
def check_memory_usage (env : SysEnv) : Bool × List CleanupEvent :=
  if 80 < env.memPercent then (true, [CleanupEvent.memCleanup]) else (false, [])

/-- `check_system_resources`: concurrency ceiling first, then memory, then
disk (with a forced cleanup and a re-read between the 0.5GB and 0.2GB
floors).  Returns the `(can_proceed, message)` pair together with the list of
forced cleanups performed. -/
def check_system_resources (active C : Nat) (env : SysEnv) :
    (Bool × String) × List CleanupEvent :=
  if C ≤ active then
    ((false, "Too many concurrent downloads. Try again later."), [])
  else if (check_memory_usage env).1 then
    ((false, "Server is under high load. Try again later."), (check_memory_usage env).2)
  else if env.freeGB < 1/2 then
    if env.freeGBAfterCleanup < 1/5 then
      ((false, "Insufficient disk space. Try again later."),
        (check_memory_usage env).2 ++ [CleanupEvent.diskCleanup])
    else
      ((true, "OK"), (check_memory_usage env).2 ++ [CleanupEvent.diskCleanup])
  else
    ((true, "OK"), (check_memory_usage env).2)

/-! ### Extraction handler (`download_audio_ultrafast` lines 204-352) -/

/-- Outcome of the single `ydl.download` invocation followed by the glob for
an audio file: either it raises with a message, or it completes and the glob
finds a file (or not). -/
inductive ExtractOutcome where
  | ok (found : Option String)
  | err (msg : String)
  deriving DecidableEq, Repr

structure UltraReq where
  isJson : Bool
  url : Option String
  deriving DecidableEq, Repr

/-- The exception handler of `download_audio_ultrafast` (lines 335-342):
lowercase the message, map "429"/"too many requests" to 429,
"unavailable"/"private"/"deleted" to 400, anything else to 500. -/
def classify_ultrafast_error (msg : String) : Nat × String :=
  if containsStr (asciiLower msg) "429" || containsStr (asciiLower msg) "too many requests" then
    (429, "Rate limited. Try again in a few minutes.")
  else if containsStr (asciiLower msg) "unavailable" || containsStr (asciiLower msg) "private"
      || containsStr (asciiLower msg) "deleted" then
    (400, "Video is unavailable or private")
  else
    (500, "Download failed: " ++ msg)

/-- The body of `download_audio_ultrafast` after the rate-limit decorator:
resource check (503), JSON check (400), URL check (400, also for a falsy
empty string), then exactly one extraction attempt whose outcome is mapped
to a response.  Returns `((http_status, message), extraction_attempts_used)`;
the attempt counter makes explicit that the handler never retries. -/
def download_audio_ultrafast (active C : Nat) (env : SysEnv) (req : UltraReq)
    (extract : ExtractOutcome) : (Nat × String) × Nat :=
  let check := (check_system_resources active C env).1
  if ¬ check.1 then ((503, check.2), 0)
  else if ¬ req.isJson then ((400, "Invalid request format. Must be JSON."), 0)
  else
    match req.url with
    | none => ((400, "No URL provided"), 0)
    | some u =>
      if u = "" then ((400, "No URL provided"), 0)
      else
        match extract with
        | ExtractOutcome.ok (some _) => ((200, "audio file sent"), 1)
        | ExtractOutcome.ok none =>
          ((500, "Download completed but no audio file was created"), 1)
        | ExtractOutcome.err m => (classify_ultrafast_error m, 1)

/-- The rate-limited `/download/audio/ultrafast` endpoint: the `rate_limit`
decorator runs first (recording the timestamp of every admitted request
before the handler body sees the request), then the handler.  Returns the
client's new timestamp list, the response, and the attempts used. -/
def download_audio_ultrafast_endpoint (L : Nat) (W : Int) (tss : List Int) (now : Int)
    (active C : Nat) (env : SysEnv) (req : UltraReq) (extract : ExtractOutcome) :
    List Int × (Nat × String) × Nat :=
  let r := rateLimitStep L W tss now
  if r.allowed then
    (r.newTimestamps, download_audio_ultrafast active C env req extract)
  else
    (r.newTimestamps, (429, "Rate limit exceeded. Try again later."), 0)

/-! ### Job model (`download_audio_async` lines 354-393,
`background_download_optimized` lines 395-539)

A job's status record is a Python dict; we embed it as an association list of
string keys to values so that the presence or absence of a key (such as
`error_kind`) is statable. -/

inductive JVal where
  | s (v : String)
  | n (v : Int)
  deriving DecidableEq, Repr

abbrev Job := List (String × JVal)

def lookupA {α : Type} : List (String × α) → String → Option α
  | [], _ => none
  | (k', v) :: t, k => if k' = k then some v else lookupA t k

/-- `d[k]` on the job dict. -/
def jget (j : Job) (k : String) : Option JVal :=
  lookupA j k

/-- `d[k] = v` on the job dict: replace in place, or append a new key. -/
def jset (j : Job) (k : String) (v : JVal) : Job :=
  if j.any (fun kv => kv.1 = k) then
    j.map (fun kv => if kv.1 = k then (k, v) else kv)
  else
    j ++ [(k, v)]

/-- `d.update({...})` on the job dict. -/
def jupdate (j : Job) (kvs : List (String × JVal)) : Job :=
  kvs.foldl (fun a kv => jset a kv.1 kv.2) j

/-- The record `download_audio_async` creates for a new job (line 376). -/
def initialJob (t : Int) : Job :=
  [("status", JVal.s "started"), ("progress", JVal.n 0),
   ("message", JVal.s "Download queued"), ("created_at", JVal.n t)]

/-- The exception handler of `background_download_optimized` (lines 516-523):
same patterns as the synchronous handler, different messages. -/
def classify_background_message (msg : String) : String :=
  if containsStr (asciiLower msg) "429" || containsStr (asciiLower msg) "too many requests" then
    "Rate limited by YouTube. Try again later."
  else if containsStr (asciiLower msg) "unavailable" || containsStr (asciiLower msg) "private"
      || containsStr (asciiLower msg) "deleted" then
    "Video is unavailable or private"
  else
    "Download failed: " ++ msg

/-- `background_download_optimized` run to completion on one job record:
given the memory-check result and the extraction outcome, returns the final
job record and the `download_files` entry recorded for the job (if any). -/
def background_download_optimized (job : Job) (memOverloaded : Bool)
    (extract : ExtractOutcome) : Job × Option String :=
  let j1 := jupdate job [("status", JVal.s "processing"), ("progress", JVal.n 10),
    ("message", JVal.s "Processing video URL")]
  if memOverloaded then
    (jupdate j1 [("status", JVal.s "failed"), ("progress", JVal.n 0),
      ("message", JVal.s "Server overloaded. Try again later.")], none)
  else
    let j2 := jupdate j1 [("progress", JVal.n 25), ("message", JVal.s "Downloading audio...")]
    let j3 := jupdate j2 [("progress", JVal.n 50), ("message", JVal.s "Converting to MP3...")]
    match extract with
    | ExtractOutcome.ok (some fp) =>
      (jupdate j3 [("status", JVal.s "completed"), ("progress", JVal.n 100),
        ("message", JVal.s "Download completed successfully")], some fp)
    | ExtractOutcome.ok none =>
      (jupdate j3 [("status", JVal.s "failed"), ("progress", JVal.n 0),
        ("message", JVal.s "No audio file was created")], none)
    | ExtractOutcome.err m =>
      (jupdate j3 [("status", JVal.s "failed"), ("progress", JVal.n 0),
        ("message", JVal.s (classify_background_message m))], none)

lemma check_system_resources_ok (active C : Nat) (env : SysEnv)
    (h1 : ¬ C ≤ active) (h2 : ¬ (80 : ℚ) < env.memPercent) (h3 : ¬ env.freeGB < 1/2) :
    check_system_resources active C env = ((true, "OK"), []) := by
  have hm : check_memory_usage env = (false, []) := by
    unfold check_memory_usage
    rw [if_neg h2]
  unfold check_system_resources
  rw [hm, if_neg h1, if_neg h3]
  simp

/-- C2: while `C` extraction jobs are active the next request is rejected
with HTTP 503 and the busy reason, and once any job completes (active count
`C - 1 < C`) the next request passes the concurrency check and is admitted
(given memory and disk headroom). -/
theorem C2_concurrency_ceiling (C active : Nat) (env : SysEnv) (req : UltraReq)
    (ex : ExtractOutcome) (hC : 1 ≤ C)
    (hmem : env.memPercent ≤ 80) (hdisk : 1/2 ≤ env.freeGB) :
    (C ≤ active →
      download_audio_ultrafast active C env req ex =
        ((503, "Too many concurrent downloads. Try again later."), 0)) ∧
    (check_system_resources (C - 1) C env).1 = (true, "OK") := by
  constructor
  · intro h
    simp [download_audio_ultrafast, check_system_resources, h]
  · have h1 : ¬ C ≤ C - 1 := by omega
    have h2 : ¬ (80 : ℚ) < env.memPercent := not_lt.mpr hmem
    have h3 : ¬ env.freeGB < 1/2 := not_lt.mpr hdisk
    rw [check_system_resources_ok (C - 1) C env h1 h2 h3]

theorem C2_concurrency_ceiling_witness :
    (2 ≤ 2 →
      download_audio_ultrafast 2 2 ⟨50, 50, 1, 1⟩ ⟨true, some "u"⟩ (ExtractOutcome.ok none) =
        ((503, "Too many concurrent downloads. Try again later."), 0)) ∧
    (check_system_resources (2 - 1) 2 ⟨50, 50, 1, 1⟩).1 = (true, "OK") :=
  C2_concurrency_ceiling 2 2 ⟨50, 50, 1, 1⟩ ⟨true, some "u"⟩ (ExtractOutcome.ok none)
    (by norm_num) (by norm_num) (by norm_num)

/-- C3 counterexample: with memory at 85% before cleanup and 50% after, the
admission check rejects even though the harder thresholds (90%, 95%) would
not be breached after cleanup — the code never re-checks memory. -/
theorem C3_memory_recheck_counterexample :
    check_system_resources 0 2 ⟨85, 50, 10, 10⟩ =
      ((false, "Server is under high load. Try again later."), [CleanupEvent.memCleanup]) ∧
    ¬ ((50 : ℚ) > 90) ∧ ¬ ((50 : ℚ) > 95) := by
  decide

/-- C3 amended: when the admission check finds memory utilization above the
(single) 80% threshold it forces an immediate cleanup sweep and rejects the
request unconditionally — no recheck against a harder threshold occurs,
whatever the post-cleanup memory reading would be. -/
theorem C3_memory_cleanup_then_reject (active C : Nat) (env : SysEnv)
    (hact : active < C) (hmem : 80 < env.memPercent) :
    check_system_resources active C env =
      ((false, "Server is under high load. Try again later."), [CleanupEvent.memCleanup]) := by
  have h1 : ¬ C ≤ active := by omega
  simp [check_system_resources, check_memory_usage, h1, hmem]

theorem C3_memory_cleanup_then_reject_witness :
    check_system_resources 0 2 ⟨95, 94, 10, 10⟩ =
      ((false, "Server is under high load. Try again later."), [CleanupEvent.memCleanup]) :=
  C3_memory_cleanup_then_reject 0 2 ⟨95, 94, 10, 10⟩ (by decide) (by decide)

/-- C10: the rate-limit decorator records the client's timestamp before any
request-body validation runs, so a request that is not rate-denied consumes
one unit of quota even when the handler then answers 400 for a non-JSON body
or a missing URL. -/
theorem C10_quota_consumed_on_invalid_body (L : Nat) (W : Int) (tss : List Int) (now : Int)
    (active C : Nat) (env : SysEnv) (req : UltraReq) (ex : ExtractOutcome)
    (hallow : (tss.filter (fun ts => now - ts < W)).length < L)
    (hact : active < C) (hmem : env.memPercent ≤ 80) (hdisk : 1/2 ≤ env.freeGB)
    (hreq : req.isJson = false ∨ req.url = none) :
    (download_audio_ultrafast_endpoint L W tss now active C env req ex).1 =
      tss.filter (fun ts => now - ts < W) ++ [now] ∧
    (download_audio_ultrafast_endpoint L W tss now active C env req ex).2.1.1 = 400 := by
  have hnle : ¬ L ≤ (tss.filter (fun ts => now - ts < W)).length := by omega
  have hstep : rateLimitStep L W tss now =
      { newTimestamps := tss.filter (fun ts => now - ts < W) ++ [now],
        allowed := true, retryAfter := none } := by
    simp [rateLimitStep, hnle]
  have h1 : ¬ C ≤ active := by omega
  have h2 : ¬ (80 : ℚ) < env.memPercent := not_lt.mpr hmem
  have h3 : ¬ env.freeGB < 1/2 := not_lt.mpr hdisk
  have hcheck : (check_system_resources active C env).1 = (true, "OK") := by
    rw [check_system_resources_ok active C env h1 h2 h3]
  constructor
  · simp [download_audio_ultrafast_endpoint, hstep]
  · simp only [download_audio_ultrafast_endpoint, hstep]
    rcases hreq with hj | hu
    · simp [download_audio_ultrafast, hcheck, hj]
    · by_cases hj : req.isJson
      · simp [download_audio_ultrafast, hcheck, hj, hu]
      · simp [download_audio_ultrafast, hcheck, hj]

theorem C10_quota_consumed_on_invalid_body_witness :
    (download_audio_ultrafast_endpoint 5 300 [0] 1 0 2 ⟨50, 50, 1, 1⟩ ⟨false, some "u"⟩
      (ExtractOutcome.ok none)).1 = [0, 1] ∧
    (download_audio_ultrafast_endpoint 5 300 [0] 1 0 2 ⟨50, 50, 1, 1⟩ ⟨false, some "u"⟩
      (ExtractOutcome.ok none)).2.1.1 = 400 := by
  have h := C10_quota_consumed_on_invalid_body 5 300 [0] 1 0 2 ⟨50, 50, 1, 1⟩
    ⟨false, some "u"⟩ (ExtractOutcome.ok none) (by decide) (by norm_num) (by norm_num)
    (by norm_num) (Or.inl rfl)
  simpa using h

lemma bg_mem_overloaded_eq (t : Int) (ex : ExtractOutcome) :
    background_download_optimized (initialJob t) true ex =
      ([("status", JVal.s "failed"), ("progress", JVal.n 0),
        ("message", JVal.s "Server overloaded. Try again later."), ("created_at", JVal.n t)],
       none) := by
  simp [background_download_optimized, jupdate, jset, initialJob]

lemma bg_found_eq (t : Int) (fp : String) :
    background_download_optimized (initialJob t) false (ExtractOutcome.ok (some fp)) =
      ([("status", JVal.s "completed"), ("progress", JVal.n 100),
        ("message", JVal.s "Download completed successfully"), ("created_at", JVal.n t)],
       some fp) := by
  simp [background_download_optimized, jupdate, jset, initialJob]

lemma bg_nofile_eq (t : Int) :
    background_download_optimized (initialJob t) false (ExtractOutcome.ok none) =
      ([("status", JVal.s "failed"), ("progress", JVal.n 0),
        ("message", JVal.s "No audio file was created"), ("created_at", JVal.n t)],
       none) := by
  simp [background_download_optimized, jupdate, jset, initialJob]

lemma bg_err_eq (t : Int) (m : String) :
    background_download_optimized (initialJob t) false (ExtractOutcome.err m) =
      ([("status", JVal.s "failed"), ("progress", JVal.n 0),
        ("message", JVal.s (classify_background_message m)), ("created_at", JVal.n t)],
       none) := by
  simp [background_download_optimized, jupdate, jset, initialJob]

lemma classify_background_message_ne_empty (m : String) :
    classify_background_message m ≠ "" := by
  unfold classify_background_message
  split
  · decide
  · split
    · decide
    · intro h
      have hl := congrArg String.length h
      rw [String.length_append] at hl
      have h17 : ("Download failed: " : String).length = 17 := rfl
      have h0 : ("" : String).length = 0 := rfl
      omega

/-- C5 counterexample: a failed job record carries no `error_kind` key at
all — the code only ever writes `status`, `progress`, `message` and
`created_at`. -/
theorem C5_error_kind_counterexample :
    jget (background_download_optimized (initialJob 0) true (ExtractOutcome.ok none)).1 "status"
      = some (JVal.s "failed") ∧
    jget (background_download_optimized (initialJob 0) true (ExtractOutcome.ok none)).1 "error_kind"
      = none := by
  decide

/-- C5 amended: for every run of the background worker, a result file path is
recorded for the job if and only if the final status is `completed`; and a
`failed` job always carries a non-empty `message` (there is no `error_kind`
field — the classified outcome lives in `message`). -/
theorem C5_result_file_iff_completed (t : Int) (mem : Bool) (extract : ExtractOutcome) :
    (jget (background_download_optimized (initialJob t) mem extract).1 "status"
        = some (JVal.s "completed") ↔
      (background_download_optimized (initialJob t) mem extract).2.isSome) ∧
    (jget (background_download_optimized (initialJob t) mem extract).1 "status"
        = some (JVal.s "failed") →
      ∃ m, jget (background_download_optimized (initialJob t) mem extract).1 "message"
        = some (JVal.s m) ∧ m ≠ "") := by
  cases mem with
  | true =>
    rw [bg_mem_overloaded_eq]
    exact ⟨by simp [jget, lookupA], fun _ =>
      ⟨"Server overloaded. Try again later.", by simp [jget, lookupA], by decide⟩⟩
  | false =>
    cases extract with
    | ok found =>
      cases found with
      | some fp =>
        rw [bg_found_eq]
        exact ⟨by simp [jget, lookupA], by simp [jget, lookupA]⟩
      | none =>
        rw [bg_nofile_eq]
        exact ⟨by simp [jget, lookupA], fun _ =>
          ⟨"No audio file was created", by simp [jget, lookupA], by decide⟩⟩
    | err m =>
      rw [bg_err_eq]
      exact ⟨by simp [jget, lookupA], fun _ =>
        ⟨classify_background_message m, by simp [jget, lookupA],
          classify_background_message_ne_empty m⟩⟩

theorem C5_result_file_iff_completed_witness :
    ∃ m, jget (background_download_optimized (initialJob 0) true (ExtractOutcome.ok none)).1
      "message" = some (JVal.s m) ∧ m ≠ "" :=
  (C5_result_file_iff_completed 0 true (ExtractOutcome.ok none)).2 (by decide)

/-- C6 counterexample: a failure whose message is exactly the
format-unavailable pattern gets no fallback attempt (one extraction attempt,
not two) and surfaces as HTTP 500 `Download failed: ...`, not as a 400
format-not-supported error. -/
theorem C6_format_fallback_counterexample :
    download_audio_ultrafast 0 2 ⟨50, 50, 1, 1⟩ ⟨true, some "u"⟩
        (ExtractOutcome.err "requested format is not available") =
      ((500, "Download failed: requested format is not available"), 1) ∧
    (500 : Nat) ≠ 400 ∧ (1 : Nat) ≠ 2 := by
  have hcheck := check_system_resources_ok 0 2 ⟨50, 50, 1, 1⟩
    (by norm_num) (by norm_num) (by norm_num)
  have hclass : classify_ultrafast_error "requested format is not available" =
      (500, "Download failed: requested format is not available") := by decide
  refine ⟨?_, by norm_num, by norm_num⟩
  simp [download_audio_ultrafast, hcheck, hclass]

/-- C6 amended: when the extraction attempt fails with a message matching
none of the classifier's patterns (in particular the exact message
"requested format is not available"), the handler makes no fallback attempt
with a degraded format selector — it performs exactly one extraction attempt
and returns HTTP 500 with `Download failed: <raw message>`. -/
theorem C6_no_format_fallback (active C : Nat) (env : SysEnv) (u msg : String)
    (hact : active < C) (hmem : env.memPercent ≤ 80) (hdisk : 1/2 ≤ env.freeGB) (hu : u ≠ "")
    (h1 : containsStr (asciiLower msg) "429" = false)
    (h2 : containsStr (asciiLower msg) "too many requests" = false)
    (h3 : containsStr (asciiLower msg) "unavailable" = false)
    (h4 : containsStr (asciiLower msg) "private" = false)
    (h5 : containsStr (asciiLower msg) "deleted" = false) :
    download_audio_ultrafast active C env ⟨true, some u⟩ (ExtractOutcome.err msg) =
      ((500, "Download failed: " ++ msg), 1) := by
  have hcheck := check_system_resources_ok active C env (by omega)
    (not_lt.mpr hmem) (not_lt.mpr hdisk)
  simp [download_audio_ultrafast, hcheck, hu, classify_ultrafast_error, h1, h2, h3, h4, h5]

theorem C6_no_format_fallback_witness :
    download_audio_ultrafast 0 2 ⟨50, 50, 1, 1⟩ ⟨true, some "u"⟩
        (ExtractOutcome.err "requested format is not available") =
      ((500, "Download failed: " ++ "requested format is not available"), 1) :=
  C6_no_format_fallback 0 2 ⟨50, 50, 1, 1⟩ "u" "requested format is not available"
    (by norm_num) (by norm_num) (by norm_num) (by decide)
    (by decide) (by decide) (by decide) (by decide) (by decide)

/-- C7: a failure whose lowercased message contains "429" (or
"too many requests") is classified as upstream rate limiting: the
synchronous handler answers HTTP 429 after exactly one extraction attempt
(no fallback retry), and the background worker marks the job failed with the
rate-limited message. -/
theorem C7_upstream_rate_limit_429 (active C : Nat) (env : SysEnv) (u msg : String) (t : Int)
    (hact : active < C) (hmem : env.memPercent ≤ 80) (hdisk : 1/2 ≤ env.freeGB) (hu : u ≠ "")
    (hmsg : containsStr (asciiLower msg) "429" = true ∨
      containsStr (asciiLower msg) "too many requests" = true) :
    download_audio_ultrafast active C env ⟨true, some u⟩ (ExtractOutcome.err msg) =
      ((429, "Rate limited. Try again in a few minutes."), 1) ∧
    jget (background_download_optimized (initialJob t) false (ExtractOutcome.err msg)).1
      "status" = some (JVal.s "failed") ∧
    jget (background_download_optimized (initialJob t) false (ExtractOutcome.err msg)).1
      "message" = some (JVal.s "Rate limited by YouTube. Try again later.") := by
  have hcheck := check_system_resources_ok active C env (by omega)
    (not_lt.mpr hmem) (not_lt.mpr hdisk)
  have hor : (containsStr (asciiLower msg) "429" ||
      containsStr (asciiLower msg) "too many requests") = true := by
    rcases hmsg with h | h <;> simp [h]
  have hbg : classify_background_message msg = "Rate limited by YouTube. Try again later." := by
    unfold classify_background_message
    simp [hor]
  refine ⟨?_, ?_, ?_⟩
  · simp [download_audio_ultrafast, hcheck, hu, classify_ultrafast_error, hor]
  · rw [bg_err_eq]
    simp [jget, lookupA]
  · rw [bg_err_eq]
    simp [jget, lookupA, hbg]

theorem C7_upstream_rate_limit_429_witness :
    download_audio_ultrafast 0 2 ⟨50, 50, 1, 1⟩ ⟨true, some "u"⟩
        (ExtractOutcome.err "HTTP Error 429: Too Many Requests") =
      ((429, "Rate limited. Try again in a few minutes."), 1) ∧
    jget (background_download_optimized (initialJob 0) false
        (ExtractOutcome.err "HTTP Error 429: Too Many Requests")).1
      "status" = some (JVal.s "failed") ∧
    jget (background_download_optimized (initialJob 0) false
        (ExtractOutcome.err "HTTP Error 429: Too Many Requests")).1
      "message" = some (JVal.s "Rate limited by YouTube. Try again later.") :=
  C7_upstream_rate_limit_429 0 2 ⟨50, 50, 1, 1⟩ "u" "HTTP Error 429: Too Many Requests" 0
    (by norm_num) (by norm_num) (by norm_num) (by decide) (Or.inl (by decide))

/-! ### Proxy management

`get_working_proxy` (lines 44-83, single-proxy revision): refreshes when the
update interval has elapsed or no proxy is held.  The entries fetched from
the remote lists and the index chosen by `random.choice` are parameters. -/

structure ProxyV1State where
  currentProxy : Option String
  lastFetched : Int
  deriving DecidableEq, Repr

def PROXY_UPDATE_INTERVAL : Int := 3600

/-- `get_working_proxy` (lines 44-83): on a due refresh with a non-empty
fetch, install `http://<choice>` and stamp the fetch time; on an empty fetch
(all sources unreachable or empty), set the current proxy to `None`.
Returns the new state and the returned proxy. -/
def get_working_proxy (st : ProxyV1State) (now : Int) (all_proxies : List String)
    (pick : Nat) : ProxyV1State × Option String :=
  if PROXY_UPDATE_INTERVAL < now - st.lastFetched ∨ st.currentProxy = none then
    if all_proxies.isEmpty then
      ({ currentProxy := none, lastFetched := st.lastFetched }, none)
    else
      ({ currentProxy := some ("http://" ++ all_proxies.getD pick (all_proxies.headD "")),
         lastFetched := now },
       some ("http://" ++ all_proxies.getD pick (all_proxies.headD "")))
  else
    (st, st.currentProxy)

/-- `fetch_proxies_from_github` (lines 714-731, list-based revision): given
the freshly fetched entries (empty when every source was unreachable),
either install the deduplicated/shuffled list (modelled by the `dedupShuffle`
parameter) and report success, or keep the previous candidate list and
report failure. -/
def fetch_proxies_from_github (proxy_list : List String) (new_proxies : List String)
    (dedupShuffle : List String → List String) : List String × Bool :=
  if new_proxies.isEmpty then (proxy_list, false)
  else (dedupShuffle new_proxies, true)

/-- The rotation loop of the list-based `get_working_proxy` (lines 768-782):
advance the cursor round-robin, probe up to `fuel` candidates, return the
first that passes `test_proxy` (the `works` parameter), else `None`. -/
def probe_rotation (pl : List String) (works : String → Bool) :
    Nat → Nat → Nat × Option String
  | cursor, 0 => (cursor, none)
  | cursor, fuel + 1 =>
    let cursor' := (cursor + 1) % pl.length
    match pl[cursor']? with
    | some p => if works p then (cursor', some p) else probe_rotation pl works cursor' fuel
    | none => (cursor', none)

/-- `get_working_proxy` (lines 756-782, list-based revision): `None` when the
candidate list is empty, otherwise probe up to `min 5 (length)` candidates. -/
def get_working_proxy_v2 (pl : List String) (cursor : Nat) (works : String → Bool) :
    Nat × Option String :=
  if pl.isEmpty then (cursor, none)
  else probe_rotation pl works cursor (min 5 pl.length)

lemma probe_rotation_none (pl : List String) (works : String → Bool)
    (hw : ∀ p, works p = false) :
    ∀ (fuel cursor : Nat), (probe_rotation pl works cursor fuel).2 = none := by
  intro fuel
  induction fuel with
  | zero => intro cursor; rfl
  | succ n ih =>
    intro cursor
    unfold probe_rotation
    cases h : pl[(cursor + 1) % pl.length]? with
    | some p => simp [h, hw p, ih]
    | none => simp [h]

/-- C4 counterexample: the cited `get_working_proxy` does not preserve the
active proxy across a failed refresh — with a held proxy and a due refresh
that fetches nothing, the held proxy is cleared to `None`. -/
theorem C4_failed_refresh_clears_proxy_counterexample :
    get_working_proxy ⟨some "http://1.2.3.4:8080", 0⟩ 4000 [] 0 =
      (⟨none, 0⟩, none) ∧
    (some "http://1.2.3.4:8080" : Option String) ≠ none := by
  decide

/-- C4 amended: when every proxy source is unreachable (no entries fetched),
nothing throws and a subsequent get still returns `None` (direct
connection); but in the single-proxy implementation (`get_working_proxy`,
lines 44-83) the previously held proxy is cleared to `None` rather than
preserved, while the list-based `fetch_proxies_from_github` does preserve
the prior candidate list (and its `get` returns `None` when no candidate
passes a probe). -/
theorem C4_failed_refresh_fail_soft (st : ProxyV1State) (now : Int) (pick : Nat)
    (pl : List String) (dedupShuffle : List String → List String) (cursor : Nat)
    (htrig : PROXY_UPDATE_INTERVAL < now - st.lastFetched ∨ st.currentProxy = none) :
    get_working_proxy st now [] pick =
      ({ currentProxy := none, lastFetched := st.lastFetched }, none) ∧
    fetch_proxies_from_github pl [] dedupShuffle = (pl, false) ∧
    (get_working_proxy_v2 pl cursor (fun _ => false)).2 = none := by
  refine ⟨?_, ?_, ?_⟩
  · unfold get_working_proxy
    rw [if_pos htrig]
    rfl
  · rfl
  · unfold get_working_proxy_v2
    by_cases h : pl.isEmpty
    · simp [h]
    · simp [h, probe_rotation_none pl (fun _ => false) (fun _ => rfl)]

theorem C4_failed_refresh_fail_soft_witness :
    get_working_proxy ⟨some "http://1.2.3.4:8080", 0⟩ 4000 [] 0 =
      ({ currentProxy := none, lastFetched := 0 }, none) ∧
    fetch_proxies_from_github ["5.6.7.8:80"] [] id = (["5.6.7.8:80"], false) ∧
    (get_working_proxy_v2 ["5.6.7.8:80"] 0 (fun _ => false)).2 = none :=
  C4_failed_refresh_fail_soft ⟨some "http://1.2.3.4:8080", 0⟩ 4000 0
    ["5.6.7.8:80"] id 0 (Or.inl (by decide))

/-! ### Job cleanup (`cleanup_download` lines 591-610)

Store state: the `download_status` job table, the `download_files` path
table, and the filesystem as the list of file paths present.  `rmtree` on a
directory removes every path strictly under it and the directory entry
itself. -/

/-- Python `os.path.dirname`: everything before the last `/`. -/
def dirname (p : String) : String :=
  String.intercalate "/" ((p.splitOn "/").dropLast)

def eraseK {α : Type} (l : List (String × α)) (k : String) : List (String × α) :=
  l.filter (fun kv => kv.1 != k)

def path_exists (fs : List String) (p : String) : Bool :=
  fs.contains p

def rmtree (fs : List String) (d : String) : List String :=
  fs.filter (fun p => !((d ++ "/").isPrefixOf p) && p != d)

structure StoreState where
  download_status : List (String × Job)
  download_files : List (String × String)
  fs : List String
  deriving DecidableEq

/-- `cleanup_download`: if a file is recorded for the job, remove its parent
temp directory from the filesystem (when the file still exists) and drop the
file-table entry; drop the status-table entry in any case. -/
def cleanup_download (st : StoreState) (job_id : String) : StoreState :=
  match lookupA st.download_files job_id with
  | some file_path =>
    { download_status := eraseK st.download_status job_id
      download_files := eraseK st.download_files job_id
      fs := if path_exists st.fs file_path then rmtree st.fs (dirname file_path) else st.fs }
  | none =>
    { st with download_status := eraseK st.download_status job_id }

lemma eraseK_cons {α : Type} (kv : String × α) (t : List (String × α)) (k : String) :
    eraseK (kv :: t) k = if kv.1 = k then eraseK t k else kv :: eraseK t k := by
  by_cases h : kv.1 = k <;> simp [eraseK, List.filter_cons, h]

lemma lookupA_eraseK {α : Type} (l : List (String × α)) (k : String) :
    lookupA (eraseK l k) k = none := by
  induction l with
  | nil => rfl
  | cons kv t ih =>
    rw [eraseK_cons]
    by_cases h : kv.1 = k
    · simp [h, ih]
    · obtain ⟨k', v⟩ := kv
      simp only at h
      simp [lookupA, h, ih]

lemma eraseK_idem {α : Type} (l : List (String × α)) (k : String) :
    eraseK (eraseK l k) k = eraseK l k := by
  induction l with
  | nil => rfl
  | cons kv t ih =>
    rw [eraseK_cons]
    by_cases h : kv.1 = k
    · simp [h, ih]
    · rw [if_neg h, eraseK_cons, if_neg h, ih]

lemma eraseK_of_lookup_none {α : Type} (l : List (String × α)) (k : String)
    (h : lookupA l k = none) : eraseK l k = l := by
  induction l with
  | nil => rfl
  | cons kv t ih =>
    obtain ⟨k', v⟩ := kv
    rw [eraseK_cons]
    by_cases hk : k' = k
    · exfalso
      simp [lookupA, hk] at h
    · simp only [hk, if_false]
      rw [ih]
      simp only [lookupA, if_neg hk] at h
      exact h

lemma cleanup_download_eq (st : StoreState) (j : String) :
    cleanup_download st j =
      { download_status := eraseK st.download_status j
        download_files := eraseK st.download_files j
        fs := match lookupA st.download_files j with
              | some fp => if path_exists st.fs fp then rmtree st.fs (dirname fp) else st.fs
              | none => st.fs } := by
  unfold cleanup_download
  cases hfd : lookupA st.download_files j with
  | some fp => simp
  | none => simp [eraseK_of_lookup_none st.download_files j hfd]

/-- C9: cleaning up a job is idempotent — a second `cleanup_download` for the
same job id finds no entries and leaves the job table, the file table, and
the filesystem exactly as the first application left them. -/
theorem C9_cleanup_download_idempotent (st : StoreState) (job_id : String) :
    cleanup_download (cleanup_download st job_id) job_id = cleanup_download st job_id := by
  rw [cleanup_download_eq (cleanup_download st job_id) job_id, cleanup_download_eq st job_id]
  simp [lookupA_eraseK, eraseK_idem]

end YTAudio
